import Mathlib

/-!
Shallow embedding of `src/examples/create_samples.py` (CompressCLI sample
generator) and proofs about it.

Conventions:
* Colors are triples of integer channel values.  Image-side computations are
  exact integer arithmetic (Python's `int(...)` of a nonnegative value is the
  floor, which for the expressions in this file coincides with natural-number
  division).
* The video color field uses `Real.sin`; Python's `int` truncation of the
  nonnegative value `128 + 127*sin(...)` is `Int.floor`.
* Python's `range(start, stop, step)` (positive step) is embedded as `pyRange`.
* A canvas is a function from pixel coordinates to a color; drawing operations
  are function updates folded in program order, so "last write wins" as in the
  source.
-/

namespace CreateSamples

/-- Embedding of Python `range(0, stop, step)` for a positive `step`:
the multiples of `step` below `stop`, in increasing order. -/
def pyRange (stop step : ℕ) : List ℕ :=
  (List.range ((stop + step - 1) / step)).map (fun i => step * i)

/-- A color: red, green, blue integer channels (image side, exact naturals). -/
structure RGB where
  r : ℕ
  g : ℕ
  b : ℕ
deriving DecidableEq, Repr

/-- Membership in `pyRange stop step` for positive `step` is exactly being a
multiple of `step` below `stop`. -/
theorem mem_pyRange (stop step x : ℕ) (hstep : 0 < step) :
    x ∈ pyRange stop step ↔ x % step = 0 ∧ x < stop := by
  unfold pyRange
  simp only [List.mem_map, List.mem_range]
  constructor
  · rintro ⟨i, hi, rfl⟩
    refine ⟨by simp, ?_⟩
    have h1 : step * i + step ≤ step * ((stop + step - 1) / step) := by
      have : i + 1 ≤ (stop + step - 1) / step := hi
      calc step * i + step = step * (i + 1) := by ring
        _ ≤ step * ((stop + step - 1) / step) := Nat.mul_le_mul_left step this
    have h2 : step * ((stop + step - 1) / step) ≤ stop + step - 1 :=
      Nat.mul_div_le _ _
    omega
  · rintro ⟨hmod, hlt⟩
    refine ⟨x / step, ?_, ?_⟩
    · have hx : x / step * step = x := Nat.div_mul_cancel (Nat.dvd_of_mod_eq_zero hmod)
      have hd : x / step + 1 ≤ (stop + step - 1) / step := by
        rw [Nat.le_div_iff_mul_le hstep, Nat.add_mul, one_mul, hx]
        omega
      exact hd
    · exact Nat.mul_div_cancel' (Nat.dvd_of_mod_eq_zero hmod)

/-- `pyRange` lists are duplicate-free (positive step). -/
theorem pyRange_nodup (stop step : ℕ) (hstep : 0 < step) :
    (pyRange stop step).Nodup := by
  unfold pyRange
  refine List.Nodup.map ?_ (List.nodup_range _)
  intro a b hab
  exact Nat.eq_of_mul_eq_mul_left hstep hab

/-! ### Pattern Tiler (sample_720p, lines 56–59)

`for x in range(0, 1280, 50): for y in range(0, 720, 50):`
`    color = (x % 255, y % 255, (x + y) % 255)`
`    draw.rectangle([x, y, x+40, y+40], fill=color)`

Each visited tile is recorded as `(x, y, fill)` in loop order
(outer loop over `x`, inner loop over `y`). -/

/-- The fill color computed for the tile with top-left corner `(x, y)`
(line 58 of the source). -/
def tileColor (x y : ℕ) : RGB :=
  ⟨x % 255, y % 255, (x + y) % 255⟩

/-- The sequence of tile draws performed by the 720p pattern loops
(lines 56–59), in program order: `(top-left x, top-left y, fill color)`. -/
def patternTiles : List (ℕ × ℕ × RGB) :=
  (pyRange 1280 50).flatMap
    (fun x => (pyRange 720 50).map (fun y => (x, y, tileColor x y)))

/-- Membership in the tile list: exactly the in-bounds grid corners, each with
the source's fill color. -/
theorem mem_patternTiles (x y : ℕ) (c : RGB) :
    (x, y, c) ∈ patternTiles ↔
      x % 50 = 0 ∧ x < 1280 ∧ y % 50 = 0 ∧ y < 720 ∧ c = tileColor x y := by
  unfold patternTiles
  simp only [List.mem_flatMap, List.mem_map, Prod.mk.injEq]
  constructor
  · rintro ⟨a, ha, b, hb, rfl, rfl, rfl⟩
    have h1 := (mem_pyRange 1280 50 a (by norm_num)).1 ha
    have h2 := (mem_pyRange 720 50 b (by norm_num)).1 hb
    exact ⟨h1.1, h1.2, h2.1, h2.2, rfl⟩
  · rintro ⟨hx1, hx2, hy1, hy2, rfl⟩
    exact ⟨x, (mem_pyRange 1280 50 x (by norm_num)).2 ⟨hx1, hx2⟩,
      y, (mem_pyRange 720 50 y (by norm_num)).2 ⟨hy1, hy2⟩, rfl, rfl, rfl⟩

/-- The tile list has no duplicates: no grid tile is visited twice. -/
theorem patternTiles_nodup : patternTiles.Nodup := by
  unfold patternTiles
  rw [List.nodup_flatMap]
  constructor
  · intro x _
    refine List.Nodup.map ?_ (pyRange_nodup 720 50 (by norm_num))
    intro a b hab
    simpa using congrArg (fun t => t.2.1) hab
  · refine (pyRange_nodup 1280 50 (by norm_num)).imp ?_
    intro a b hab
    intro t hta htb
    simp only [List.mem_map] at hta htb
    obtain ⟨y1, _, rfl⟩ := hta
    obtain ⟨y2, _, heq⟩ := htb
    exact hab (congrArg Prod.fst heq).symm

set_option maxRecDepth 4000 in
/-- C3: the Pattern Tiler on the 1280×720 canvas visits exactly the grid tiles
with top-left corners `x ∈ {0,50,…,1250}`, `y ∈ {0,50,…,700}` — i.e. the
multiples of 50 inside bounds — each exactly once (the draw list is
duplicate-free and membership is exactly the in-bounds grid), and fills each
with exactly `(x mod 255, y mod 255, (x+y) mod 255)`. -/
theorem c3_pattern_tiler :
    (∀ x y c, (x, y, c) ∈ patternTiles ↔
      x % 50 = 0 ∧ x < 1280 ∧ y % 50 = 0 ∧ y < 720 ∧
        c = ⟨x % 255, y % 255, (x + y) % 255⟩) ∧
    patternTiles.Nodup ∧ patternTiles.length = 26 * 15 :=
  ⟨fun x y c => mem_patternTiles x y c, patternTiles_nodup, by rfl⟩

/-! ### Horizontal gradient (sample_1080p, lines 37–43)

`img_1080p = Image.new('RGB', (1920, 1080), color='lightgreen')`
`for i in range(1920):`
`    color_val = int(255 * (i / 1920))`
`    draw.line([(i, 0), (i, 1080)], fill=(color_val, 100, 255 - color_val))`

The canvas is a function from `(x, y)` to a color; each `draw.line` call
overwrites one full column (rows are clipped to the canvas), and the calls are
folded in loop order, so later writes win as in the source. -/

/-- The line color computed at column `i` (lines 41–42):
`color_val = int(255 * (i / 1920))`, fill `(color_val, 100, 255 - color_val)`.
In exact arithmetic `int(255 * (i/1920)) = 255*i/1920` (floor). -/
def gradColor (i : ℕ) : RGB :=
  ⟨255 * i / 1920, 100, 255 - 255 * i / 1920⟩

/-- Pillow's named color `lightgreen`, the 1080p background (line 37). -/
def lightgreen : RGB := ⟨144, 238, 144⟩

/-- One `draw.line([(i, 0), (i, 1080)], fill=c)` call: overwrites every pixel
of column `i` with rows `0..1080` (rows past the canvas are clipped away by
the bound in the canvas-read theorems). -/
def drawVLine (buf : ℕ → ℕ → RGB) (i : ℕ) (c : RGB) : ℕ → ℕ → RGB :=
  fun x y => if x = i ∧ y ≤ 1080 then c else buf x y

/-- The first `n` iterations of the gradient loop (lines 40–42) applied to the
lightgreen background. -/
def gradientCanvasAux (n : ℕ) : ℕ → ℕ → RGB :=
  (List.range n).foldl (fun buf i => drawVLine buf i (gradColor i)) (fun _ _ => lightgreen)

/-- The finished 1080p gradient canvas: all 1920 column writes applied. -/
def gradientCanvas : ℕ → ℕ → RGB := gradientCanvasAux 1920

/-- After the first `n` column writes, every pixel in a column `x < n` holds
that column's line color, independently of the row. -/
theorem gradientCanvasAux_eq (n x y : ℕ) (hx : x < n) (hy : y ≤ 1080) :
    gradientCanvasAux n x y = gradColor x := by
  induction n with
  | zero => omega
  | succ m ih =>
    have hstep : gradientCanvasAux (m + 1)
        = drawVLine (gradientCanvasAux m) m (gradColor m) := by
      unfold gradientCanvasAux
      rw [List.range_succ, List.foldl_append]
      rfl
    rw [hstep]
    unfold drawVLine
    by_cases hxm : x = m
    · subst hxm
      rw [if_pos ⟨rfl, hy⟩]
    · rw [if_neg (fun h => hxm h.1)]
      exact ih (by omega)

/-- C5: on the 1080p canvas the written color is constant within each column
(all rows of column `x` identical), equals the per-column linear interpolation
`(int(255·x/1920), 100, 255 − int(255·x/1920))`, the red channel is
monotonically non-decreasing and the blue channel monotonically non-increasing
across columns, and the endpoint columns hold the start color `(0,100,255)`
and end color `(254,100,1)`. -/
theorem c5_gradient_1080p (x x2 y y2 : ℕ) (hx : x < 1920) (hx2 : x2 < 1920)
    (hxx : x ≤ x2) (hy : y < 1080) (hy2 : y2 < 1080) :
    gradientCanvas x y = ⟨255 * x / 1920, 100, 255 - 255 * x / 1920⟩ ∧
    gradientCanvas x y = gradientCanvas x y2 ∧
    (gradientCanvas x y).r ≤ (gradientCanvas x2 y).r ∧
    (gradientCanvas x2 y).b ≤ (gradientCanvas x y).b ∧
    gradientCanvas 0 y = ⟨0, 100, 255⟩ ∧
    gradientCanvas 1919 y = ⟨254, 100, 1⟩ := by
  have e : ∀ a b : ℕ, a < 1920 → b < 1080 → gradientCanvas a b = gradColor a :=
    fun a b ha hb => gradientCanvasAux_eq 1920 a b ha (by omega)
  have hmono : 255 * x / 1920 ≤ 255 * x2 / 1920 :=
    Nat.div_le_div_right (Nat.mul_le_mul_left 255 hxx)
  refine ⟨e x y hx hy, ?_, ?_, ?_, ?_, ?_⟩
  · rw [e x y hx hy, e x y2 hx hy2]
  · rw [e x y hx hy, e x2 y hx2 hy]
    exact hmono
  · rw [e x y hx hy, e x2 y hx2 hy]
    exact Nat.sub_le_sub_left hmono 255
  · rw [e 0 y (by norm_num) hy]
    rfl
  · rw [e 1919 y (by norm_num) hy]
    rfl

/-- Witness for C5 at columns 0 and 1919, rows 0 and 5. -/
theorem c5_gradient_1080p_witness :
    gradientCanvas 0 0 = ⟨255 * 0 / 1920, 100, 255 - 255 * 0 / 1920⟩ ∧
    gradientCanvas 0 0 = gradientCanvas 0 5 ∧
    (gradientCanvas 0 0).r ≤ (gradientCanvas 1919 0).r ∧
    (gradientCanvas 1919 0).b ≤ (gradientCanvas 0 0).b ∧
    gradientCanvas 0 0 = ⟨0, 100, 255⟩ ∧
    gradientCanvas 1919 0 = ⟨254, 100, 1⟩ :=
  c5_gradient_1080p 0 1919 0 5 (by norm_num) (by norm_num) (by norm_num)
    (by norm_num) (by norm_num)

/-! ### Video sequencing and labels (create_sample_video, lines 99–129) -/

/-- Frame rate of the sample video (line 101): `fps = 30`. -/
def fps : ℕ := 30

/-- Duration in seconds of the sample video (line 102): `duration = 10`. -/
def duration : ℕ := 10

/-- Total frame count (line 103): `total_frames = fps * duration`. -/
def total_frames : ℕ := fps * duration

/-- The frame indices iterated by `for frame_num in range(total_frames)`
(line 113), in the order the frames are handed to `out.write` (line 129). -/
def writtenFrameIndices : List ℕ := List.range total_frames

/-- The integer shown in the tenths place by Python's one-decimal formatting
of `k/30` (line 125): the nearest integer to `10·k/30 = k/3`.  The fractional
part of `k/3` is always `0`, `1/3` or `2/3`, never exactly `1/2`, so nearest
rounding is unambiguous and `(k+1)/3` (integer division) computes it. -/
def timeTenths (k : ℕ) : ℕ := (k + 1) / 3

/-- The elapsed-time label stamped on frame `k` (lines 124–125):
`f'Time: {frame_num/fps:.1f}s'`, i.e. `k/30` rendered with one decimal. -/
def timeLabel (k : ℕ) : String :=
  "Time: " ++ toString (timeTenths k / 10) ++ "." ++ toString (timeTenths k % 10) ++ "s"

/-- C4: with frame_rate 30 and duration 10 s the synthesizer produces exactly
300 frames, whose indices are exactly `{0,…,299}`, written to the video writer
in strictly increasing order; the elapsed-time label of frame `k` shows `k/30`
rounded to one decimal place (`10·timeTenths k` is within half a tenth of
`10·k/30`, expressed in integers as `|3·timeTenths k − k| ≤ 1`), e.g.
`Time: 0.0s`, `Time: 0.5s` and `Time: 10.0s` for frames 0, 15 and 299. -/
theorem c4_video_frame_sequence :
    writtenFrameIndices = List.range 300 ∧
    (∀ k, k ∈ writtenFrameIndices ↔ k < 300) ∧
    List.Pairwise (fun a b => a < b) writtenFrameIndices ∧
    (∀ k, k < 300 → 3 * timeTenths k ≤ k + 1 ∧ k ≤ 3 * timeTenths k + 1) ∧
    timeLabel 0 = "Time: 0.0s" ∧ timeLabel 15 = "Time: 0.5s" ∧
    timeLabel 299 = "Time: 10.0s" := by
  refine ⟨rfl, ?_, ?_, ?_, rfl, rfl, rfl⟩
  · intro k
    exact List.mem_range
  · exact List.pairwise_lt_range total_frames
  · intro k _
    unfold timeTenths
    omega

/-- Witness for C4's per-frame rounding clause at frame 7. -/
theorem c4_video_frame_sequence_witness :
    3 * timeTenths 7 ≤ 7 + 1 ∧ 7 ≤ 3 * timeTenths 7 + 1 :=
  c4_video_frame_sequence.2.2.2.1 7 (by norm_num)

/-- The frame-counter label stamped on frame `k` (lines 122–123):
`f'Frame {frame_num + 1}/{total_frames}'`. -/
def frameCounterLabel (k : ℕ) : String :=
  "Frame " ++ toString (k + 1) ++ "/" ++ toString total_frames

/-- C9: the counter stamped on the frame with 0-based index `k` reads
`Frame {k+1}/300` — 1-based, offset by one from the index — ranging from
`Frame 1/300` at index 0 to `Frame 300/300` at index 299. -/
theorem c9_frame_counter_label :
    (∀ k, k < 300 →
      frameCounterLabel k = "Frame " ++ toString (k + 1) ++ "/" ++ toString 300) ∧
    frameCounterLabel 0 = "Frame 1/300" ∧
    frameCounterLabel 299 = "Frame 300/300" :=
  ⟨fun _ _ => rfl, rfl, rfl⟩

/-- Witness for C9's per-frame clause at frame 41. -/
theorem c9_frame_counter_label_witness :
    frameCounterLabel 41 = "Frame " ++ toString (41 + 1) ++ "/" ++ toString 300 :=
  c9_frame_counter_label.1 41 (by norm_num)

/-! ### Photo sample sky band (lines 73–75)

`for y in range(500):`
`    color_val = int(135 + (y / 500) * 120)`
`    draw.line([(0, y), (2048, y)], fill=(color_val, color_val + 20, 255))` -/

/-- The sky-band line color at row `y` of the photo sample (lines 73–75).
In exact arithmetic `int(135 + (y/500)*120) = 135 + 120*y/500` (floor of a
nonnegative value). -/
def skyColor (y : ℕ) : RGB :=
  ⟨135 + 120 * y / 500, 135 + 120 * y / 500 + 20, 255⟩

/-- C1 fails on the code: the photo sample's sky band computes green channel
values above 255 with no clamp — green is 256 at row 421 and reaches 274 at
row 499 — so not every computed channel lies in [0,255]. -/
theorem c1_sky_green_exceeds_255 :
    (skyColor 421).g = 256 ∧ (skyColor 499).g = 274 ∧ 255 < (skyColor 499).g := by
  refine ⟨?_, ?_, ?_⟩ <;> decide

/-! ### Driver, optional video dependency, font fallback -/

/-- Outcome of `create_sample_video` (lines 92–136): either the video artifact
is written (the `try` body runs to completion), or — when `import cv2` at
line 94 raises ImportError — the handler at lines 133–135 prints two notices
and writes nothing. -/
inductive VideoOutcome where
  | created (path : String) (frameIndices : List ℕ)
  | skipped (notices : List String)
deriving DecidableEq, Repr

/-- Embeds `create_sample_video` (lines 92–136), parameterized by whether the
`import cv2` statement succeeds.  The function itself never raises: the only
failure in scope (ImportError) is caught by the `except ImportError` handler,
so the codomain needs no error case. -/
def create_sample_video (cv2Available : Bool) : VideoOutcome :=
  if cv2Available then
    VideoOutcome.created "examples/samples/sample_video.mp4" writtenFrameIndices
  else
    VideoOutcome.skipped
      ["OpenCV not available, skipping video creation",
       "To create sample video, install: pip install opencv-python numpy"]

/-- The image files saved by `create_sample_images` (lines 33, 47, 63, 88), in
program order. -/
def imageArtifacts : List String :=
  ["examples/samples/sample_4k.png", "examples/samples/sample_1080p.jpg",
   "examples/samples/sample_720p.webp", "examples/samples/sample_photo.jpg"]

/-- The files written by the `__main__` driver (lines 138–143):
`create_sample_images()` first, then `create_sample_video()`, which adds the
video path exactly when cv2 imports. -/
def artifactsWritten (cv2Available : Bool) : List String :=
  imageArtifacts ++
    (match create_sample_video cv2Available with
     | VideoOutcome.created p _ => [p]
     | VideoOutcome.skipped _ => [])

/-- C6: when the video-encoding collaborator's import fails, the video step
returns a skip outcome carrying the two diagnostic notices, no video artifact
is written, the image artifacts are exactly the same as in the available case
(image generation unaffected), and no error propagates (the outcome type has
no error case; the skip is an ordinary return value). -/
theorem c6_video_skip_on_unavailable :
    create_sample_video false =
      VideoOutcome.skipped
        ["OpenCV not available, skipping video creation",
         "To create sample video, install: pip install opencv-python numpy"] ∧
    artifactsWritten false = imageArtifacts ∧
    ("examples/samples/sample_video.mp4" ∈ artifactsWritten false) = False ∧
    artifactsWritten true =
      imageArtifacts ++ ["examples/samples/sample_video.mp4"] ∧
    imageArtifacts.Sublist (artifactsWritten false) := by
  refine ⟨rfl, rfl, ?_, rfl, ?_⟩
  · simp [artifactsWritten, create_sample_video, imageArtifacts]
  · simp [artifactsWritten]

/-- The one font resource the source ever acquires:
`ImageFont.load_default()` (line 23). -/
inductive FontResource where
  | defaultFont
deriving DecidableEq, Repr

/-- Embeds lines 21–25: `try: font = ImageFont.load_default()` with a bare
`except:` falling back to `font = None`.  Every acquisition failure is
absorbed into the `none` value; nothing is raised. -/
def acquireFont (loadSucceeds : Bool) : Option FontResource :=
  if loadSucceeds then some FontResource.defaultFont else none

/-- One `draw.text` call: anchor position, string, and the font resource
passed (the `font` variable from line 23/25). -/
structure TextStamp where
  pos : ℕ × ℕ
  text : String
  font : Option FontResource
deriving DecidableEq, Repr

/-- The eight text stamps drawn by `create_sample_images` (lines 30–31, 45–46,
61–62, 85–86), in program order.  Every stamp is attempted whatever
`acquireFont` returned; the font value is the only dependence. -/
def imageTextStamps (loadSucceeds : Bool) : List TextStamp :=
  [⟨(200, 200), "Sample 4K Image", acquireFont loadSucceeds⟩,
   ⟨(200, 300), "For CompressCLI Testing", acquireFont loadSucceeds⟩,
   ⟨(100, 100), "Sample 1080p Image", acquireFont loadSucceeds⟩,
   ⟨(100, 150), "Gradient Background", acquireFont loadSucceeds⟩,
   ⟨(50, 50), "Sample 720p Image", acquireFont loadSucceeds⟩,
   ⟨(50, 100), "Pattern Background", acquireFont loadSucceeds⟩,
   ⟨(100, 1400), "Sample Photo-like Image", acquireFont loadSucceeds⟩,
   ⟨(100, 1450), "Landscape Simulation", acquireFont loadSucceeds⟩]

/-- Embeds the completion of `create_sample_images` (lines 11–89): the
function saves the four image files and returns; font acquisition cannot make
it fail (the bare `except` at line 24 absorbs any error), so the result is
always `ok` regardless of font availability. -/
def create_sample_images (_loadSucceeds : Bool) : Except String (List String) :=
  Except.ok imageArtifacts

/-- C7: a font-acquisition failure is fully absorbed — `acquireFont` yields
the degraded `none` resource instead of propagating — every one of the eight
text stamps is still attempted with the same anchors and strings as in the
success case, and image generation completes (returns `ok` with the same four
artifacts) whether or not the font loads. -/
theorem c7_font_failure_absorbed :
    acquireFont false = none ∧
    create_sample_images false = Except.ok imageArtifacts ∧
    create_sample_images true = Except.ok imageArtifacts ∧
    (imageTextStamps false).length = 8 ∧
    (imageTextStamps false).map TextStamp.text =
      (imageTextStamps true).map TextStamp.text ∧
    (imageTextStamps false).map TextStamp.pos =
      (imageTextStamps true).map TextStamp.pos ∧
    (imageTextStamps false).all (fun s => s.font == none) = true := by
  exact ⟨rfl, rfl, rfl, rfl, rfl, rfl, rfl⟩

/-! ### Dimension handling (lines 99–119) -/

/-- The error kind the specification postulates for non-positive dimensions.
No constructor of this type is ever produced by the embedded code. -/
inductive GenError where
  | invalidDimensions
deriving DecidableEq, Repr

/-- List.flatMap of a constantly empty function is empty. -/
theorem flatMap_const_nil {α β : Type} (l : List α) :
    (l.flatMap (fun _ => ([] : List β))) = [] := by
  induction l with
  | nil => rfl
  | cons a t ih => simp [ih]

/-- Embeds the per-frame canvas construction of `create_sample_video`
(lines 107–119) with the fixed `width, height = 1280, 720` (line 100) made
parameters: `np.zeros((height, width, 3))` followed by the nested pixel loops
`for y in range(height): for x in range(width)`.  The source performs no
dimension validation and this code has no failure path, so the result is
always `ok`: the row-major list of pixel coordinates assigned, which is empty
when either dimension is zero. -/
def makeFrameCanvas (width height : ℕ) : Except GenError (List (ℕ × ℕ)) :=
  Except.ok
    ((List.range height).flatMap (fun y => (List.range width).map (fun x => (x, y))))

/-- C8 fails on the code: generation with a non-positive width (width = 0)
does not fail with InvalidDimensions — it succeeds with an empty canvas. -/
theorem c8_counterexample_width_zero :
    makeFrameCanvas 0 720 = Except.ok [] ∧
    makeFrameCanvas 0 720 ≠ Except.error GenError.invalidDimensions := by
  have h : makeFrameCanvas 0 720 = Except.ok [] := by
    unfold makeFrameCanvas
    rw [show (List.range 0) = ([] : List ℕ) from rfl]
    simp only [List.map_nil]
    rw [flatMap_const_nil]
  exact ⟨h, by rw [h]; exact fun hc => Except.noConfusion hc⟩

/-- C8 amended: the canvas/field generation code performs no dimension
validation and has no failure path at all — for every width and height,
including non-positive (zero) ones, it returns `ok` (an empty pixel grid when
a dimension is zero), and in particular no error condition exists for the
positive dimensions the program actually uses. -/
theorem c8_no_dimension_validation (width height : ℕ) :
    (∃ grid, makeFrameCanvas width height = Except.ok grid) ∧
    (width = 0 → makeFrameCanvas width height = Except.ok []) ∧
    (height = 0 → makeFrameCanvas width height = Except.ok []) := by
  refine ⟨⟨_, rfl⟩, ?_, ?_⟩
  · rintro rfl
    unfold makeFrameCanvas
    rw [show (List.range 0) = ([] : List ℕ) from rfl]
    simp only [List.map_nil]
    rw [flatMap_const_nil]
  · rintro rfl
    rfl

/-- Witness for C8's amended statement at width 0, height 3. -/
theorem c8_no_dimension_validation_witness :
    makeFrameCanvas 0 3 = Except.ok [] :=
  (c8_no_dimension_validation 0 3).2.1 rfl

/-! ### Video color field (lines 113–119)

`for y in range(height): for x in range(width):`
`    r = int(128 + 127 * np.sin(2 * np.pi * frame_num / 60 + x / 100))`
`    g = int(128 + 127 * np.sin(2 * np.pi * frame_num / 60 + y / 100))`
`    b = int(128 + 127 * np.sin(2 * np.pi * frame_num / 60 + (x + y) / 200))`
`    frame[y, x] = [b, g, r]  # OpenCV uses BGR`

The sine is modelled over the reals; `int(...)` of the nonnegative value
`128 + 127*sin(...) ∈ [1, 255]` is `Int.floor`.  `Real.sin` makes these
definitions noncomputable; all claims about them are settled symbolically. -/

/-- The (red, green, blue) channel triple the source computes for pixel
`(x, y)` of frame `frame_num` (lines 116–118). -/
noncomputable def videoField (frame_num x y : ℕ) : ℤ × ℤ × ℤ :=
  (⌊(128 : ℝ) + 127 * Real.sin (2 * Real.pi * frame_num / 60 + x / 100)⌋,
   ⌊(128 : ℝ) + 127 * Real.sin (2 * Real.pi * frame_num / 60 + y / 100)⌋,
   ⌊(128 : ℝ) + 127 * Real.sin (2 * Real.pi * frame_num / 60 + (x + y) / 200)⌋)

/-- The value stored in the frame buffer at `frame[y, x]` (line 119): the
channels reordered as `[b, g, r]` for OpenCV's BGR convention. -/
noncomputable def storedPixelBGR (frame_num x y : ℕ) : ℤ × ℤ × ℤ :=
  ((videoField frame_num x y).2.2, (videoField frame_num x y).2.1,
   (videoField frame_num x y).1)

/-- One channel as the spec phrases it:
`channel = 128 + 127 * sin(2π·frame_index/60 + phase)`. -/
noncomputable def specSinChannel (frame_index : ℕ) (phase : ℝ) : ℤ :=
  ⌊(128 : ℝ) + 127 * Real.sin (2 * Real.pi * frame_index / 60 + phase)⌋

/-- The field as the spec phrases it: three independent sinusoidal channels
with phase depending on x only, y only, and (x+y) respectively. -/
noncomputable def specSinusoidField (frame_index x y : ℕ) : ℤ × ℤ × ℤ :=
  (specSinChannel frame_index (x / 100),
   specSinChannel frame_index (y / 100),
   specSinChannel frame_index ((x + y) / 200))

/-- C2: for every in-range pixel and frame index, the code's (r, g, b) triple
is exactly the spec's three independent sinusoids — `128 + 127·sin(2π·k/60 +
phase)` with phases `x/100`, `y/100`, `(x+y)/200` — the stored buffer entry is
its BGR reordering, and the value recomputes identically from equal inputs
(the field is a pure function of `(x, y, frame_index)`). -/
theorem c2_video_field_sinusoids (k x y : ℕ)
    (_hk : k < 300) (_hx : x < 1280) (_hy : y < 720) :
    videoField k x y = specSinusoidField k x y ∧
    storedPixelBGR k x y = ((videoField k x y).2.2, (videoField k x y).2.1,
      (videoField k x y).1) ∧
    (∀ k2 x2 y2 : ℕ, k2 = k → x2 = x → y2 = y →
      videoField k2 x2 y2 = videoField k x y) :=
  ⟨rfl, rfl, fun k2 x2 y2 h1 h2 h3 => by rw [h1, h2, h3]⟩

/-- Witness for C2 at frame 0, pixel (0, 0). -/
theorem c2_video_field_sinusoids_witness :
    videoField 0 0 0 = specSinusoidField 0 0 0 ∧
    storedPixelBGR 0 0 0 = ((videoField 0 0 0).2.2, (videoField 0 0 0).2.1,
      (videoField 0 0 0).1) ∧
    (∀ k2 x2 y2 : ℕ, k2 = 0 → x2 = 0 → y2 = 0 →
      videoField k2 x2 y2 = videoField 0 0 0) :=
  c2_video_field_sinusoids 0 0 0 (by norm_num) (by norm_num) (by norm_num)

/-- C10: the video color field is periodic in the frame index with period 60:
for frames `k` and `k + 60` both in range, every pixel's (r, g, b) triple is
identical, because the sinusoid argument grows by exactly 2π. -/
theorem c10_field_period_60 (k x y : ℕ)
    (_hk : k + 60 < 300) (_hx : x < 1280) (_hy : y < 720) :
    videoField (k + 60) x y = videoField k x y := by
  have key : ∀ p : ℝ, Real.sin (2 * Real.pi * ((k + 60 : ℕ) : ℝ) / 60 + p)
      = Real.sin (2 * Real.pi * (k : ℝ) / 60 + p) := by
    intro p
    have h2 : 2 * Real.pi * ((k + 60 : ℕ) : ℝ) / 60 + p
        = (2 * Real.pi * (k : ℝ) / 60 + p) + 2 * Real.pi := by
      push_cast
      ring
    rw [h2, Real.sin_add_two_pi]
  unfold videoField
  simp only [Prod.mk.injEq]
  exact ⟨by rw [key], by rw [key], by rw [key]⟩

/-- Witness for C10: frame 60 shows the same field as frame 0 at pixel (0, 0). -/
theorem c10_field_period_60_witness :
    videoField 60 0 0 = videoField 0 0 0 := by
  simpa using c10_field_period_60 0 0 0 (by norm_num) (by norm_num) (by norm_num)

end CreateSamples
